import Mathlib

/-!
Shallow embedding of the streamer session manager and event relay
(`src/index.ts` of the scst-server repository), together with proofs of
the specification claims about it.

Modelling conventions:
- JavaScript values reaching the message handler are modelled by the JSON
  value type `JVal`; `Option JVal` models a value that may be `undefined`
  (`none` = `undefined`).
- Property access `v.k` (which throws a `TypeError` when `v` is `null` or
  `undefined`) is `jsProp`; optional chaining `v?.k` is `jsOptProp`.
- A WebSocket is identified by the `Nat` counter value at its creation;
  its `readyState` lives in the `wsStates` association list.  `close()`
  is modelled as moving directly to `closed` (the only observer of the
  intermediate CLOSING state in the source is `readyState === OPEN`
  checks, which treat CLOSING and CLOSED alike, and the `onclose`
  handler only logs).
- The lowdb token store (`db.data.tokens`) is the `tokens` field of the
  server state; `db.read`/`db.write` are identity on this model.
- HTTP `fetch` responses are supplied by oracles: `respond : Nat → Nat`
  gives the status of the i-th subscription request of one
  `subscribeToEvents` call, and `validate : String → ValidateResp` gives
  the validation response for a token.
-/

/-- JSON values, as produced by `JSON.parse`. -/
inductive JVal where
  | null : JVal
  | bool : Bool → JVal
  | str : String → JVal
  | num : Int → JVal
  | obj : List (String × JVal) → JVal
  | arr : List JVal → JVal

/-- WebSocket readyState (CLOSING collapsed into `closed`, see header). -/
inductive WSState where
  | connecting : WSState
  | opened : WSState
  | closed : WSState
deriving DecidableEq

/-- Association-list lookup (JS object / Record indexing). -/
def getA {α β : Type} [DecidableEq α] (k : α) : List (α × β) → Option β
  | [] => none
  | (k', v) :: rest => if k' = k then some v else getA k rest

/-- Association-list update (JS object property assignment). -/
def setA {α β : Type} [DecidableEq α] (k : α) (v : β) : List (α × β) → List (α × β)
  | [] => [(k, v)]
  | (k', v') :: rest => if k' = k then (k, v) :: rest else (k', v') :: setA k v rest

/-- The `StreamerSession` interface of `src/index.ts` (the `ws` field holds
the identifier of the owned WebSocket). -/
structure StreamerSession where
  token : String
  channelId : String
  ws : Nat
  sessionId : Option JVal

/-- One entry of `db.data.tokens`. -/
structure TokenEntry where
  userId : String
  token : String
deriving DecidableEq

/-- The mutable state of the server process:
`streamerSessions` (channelId → session object, the session object itself
keyed by its ws identifier in `sessions`), the WebSocket states, the fresh
WebSocket counter, the token store, and the widget listener list with the
listeners' connection states. -/
structure ServerState where
  streamerSessions : List (String × Nat)
  sessions : List (Nat × StreamerSession)
  wsStates : List (Nat × WSState)
  nextWs : Nat
  tokens : List TokenEntry
  widgetClients : List Nat
  clientStates : List (Nat × WSState)

/-- Errors a JS expression can throw: `JSON.parse` failure, or a
`TypeError` from reading a property of `null`/`undefined`. -/
inductive JsErr where
  | typeError : JsErr
  | parseError : JsErr
deriving DecidableEq

/-- Property access `v.k`: throws on `null`/`undefined`, returns the field
on objects, `undefined` on other primitives. -/
def jsProp (v : Option JVal) (k : String) : Except JsErr (Option JVal) :=
  match v with
  | none => Except.error JsErr.typeError
  | some JVal.null => Except.error JsErr.typeError
  | some (JVal.obj fs) => Except.ok (getA k fs)
  | some _ => Except.ok none

/-- Optional chaining `v?.k`: never throws. -/
def jsOptProp (v : Option JVal) (k : String) : Option JVal :=
  match v with
  | some (JVal.obj fs) => getA k fs
  | _ => none

/-- JS truthiness of a value (`undefined`, `null`, `false`, `0`, `""` are
falsy). -/
def jsTruthy (v : Option JVal) : Bool :=
  match v with
  | none => false
  | some JVal.null => false
  | some (JVal.bool b) => b
  | some (JVal.str s) => s != ""
  | some (JVal.num n) => n != 0
  | some (JVal.obj _) => true
  | some (JVal.arr _) => true

/-- Strict equality `v === "s"` of a value against a string literal. -/
def isStr (v : Option JVal) (s : String) : Bool :=
  match v with
  | some (JVal.str t) => t == s
  | _ => false

/-- `res.ok`: status in the 2xx range. -/
def resOk (status : Nat) : Bool :=
  200 ≤ status && status < 300

/-- The guard of the revocation branch in `subscribeToEvents`:
`!res.ok && (res.status === 401 || res.status === 403)`. -/
def authFail (status : Nat) : Bool :=
  !resOk status && (status == 401 || status == 403)

/-- `connectTwitchWS(token, channelId)`: create a fresh WebSocket in
CONNECTING state, build a session with `sessionId: null`, and store it in
`streamerSessions[channelId]` (overwriting any previous entry; the source
closes nothing here). -/
def connectTwitchWS (token channelId : String) (st : ServerState) : ServerState :=
  { st with
    nextWs := st.nextWs + 1
    wsStates := setA st.nextWs WSState.connecting st.wsStates
    sessions := setA st.nextWs
      { token := token, channelId := channelId, ws := st.nextWs, sessionId := none }
      st.sessions
    streamerSessions := setA channelId st.nextWs st.streamerSessions }

/-- Result of the `/registerStreamer` HTTP handler. -/
inductive RegisterResult where
  | badRequest : RegisterResult
  | okResp : String → RegisterResult
deriving DecidableEq

/-- The `/registerStreamer` handler: 400 when `userId` or `token` is
falsy; otherwise `channelId = userId`, connect only when no entry exists
in `streamerSessions`, and answer `{success: true, channelId}`. -/
def registerStreamer (userId token : Option String) (st : ServerState) :
    ServerState × RegisterResult :=
  match userId, token with
  | some u, some t =>
    if u = "" ∨ t = "" then (st, RegisterResult.badRequest)
    else
      ((if (getA u st.streamerSessions).isSome then st else connectTwitchWS t u st),
       RegisterResult.okResp u)
  | _, _ => (st, RegisterResult.badRequest)

/-- The body of one EventSub subscription request issued by
`subscribeToEvents` (headers' token plus the JSON body fields). -/
structure SubRequest where
  type : String
  version : String
  broadcaster_user_id : String
  session_id : Option JVal
  method : String
  token : String

/-- The request issued for phase `e` of the hype-train event family. -/
def mkSubRequest (e token channelId : String) (sessionId : Option JVal) : SubRequest :=
  { type := "channel.hype_train." ++ e
    version := "1"
    broadcaster_user_id := channelId
    session_id := sessionId
    method := "websocket"
    token := token }

/-- The fixed topic phase list `["begin", "progress", "end"]`. -/
def hypeTrainEvents : List String := ["begin", "progress", "end"]

/-- The loop body of `subscribeToEvents`: issue one request per phase in
order; on `!res.ok && (401 || 403)` remove the `{userId, token}` pair from
the token store, close the session's WebSocket if the registry has one and
it is OPEN, and `break`.  `k` counts the requests already issued (indexing
the `respond` oracle). -/
def subscribeGo (respond : Nat → Nat) (token channelId : String)
    (sessionId : Option JVal) : List String → Nat → ServerState →
    ServerState × List SubRequest
  | [], _, st => (st, [])
  | e :: es, k, st =>
    let req := mkSubRequest e token channelId sessionId
    if authFail (respond k) then
      let st1 := { st with
        tokens := st.tokens.filter (fun t => t.token != token || t.userId != channelId) }
      let st2 :=
        match getA channelId st1.streamerSessions with
        | some sid =>
          match getA sid st1.sessions with
          | some sess =>
            if getA sess.ws st1.wsStates = some WSState.opened then
              { st1 with wsStates := setA sess.ws WSState.closed st1.wsStates }
            else st1
          | none => st1
        | none => st1
      (st2, [req])
    else
      let r := subscribeGo respond token channelId sessionId es (k + 1) st
      (r.1, req :: r.2)

/-- `subscribeToEvents(token, channelId, sessionId)`. -/
def subscribeToEvents (respond : Nat → Nat) (token channelId : String)
    (sessionId : Option JVal) (st : ServerState) : ServerState × List SubRequest :=
  subscribeGo respond token channelId sessionId hypeTrainEvents 0 st

/-- One message sent to a widget client: the client it went to and the
fields of the JSON object passed to `client.send`.  `none` in `userId` /
`userName` stands for JSON `null` (the source writes `event.user_id ||
null`), while a `none` in `eventType` stands for `undefined`. -/
structure Sent where
  client : Nat
  channelId : String
  eventType : Option JVal
  event : Option JVal
  userId : Option JVal
  userName : Option JVal

/-- The `widgetClients.forEach` loop of the notification branch: for each
client whose `readyState` is OPEN, evaluate
`{channelId, eventType: data.payload.subscription.type, event,
userId: event.user_id || null, userName: event.user_name || null}`
(the field reads can throw) and send it; other clients are skipped and the
list itself is never modified here. -/
def broadcastGo (payload event : Option JVal) (channelId : String)
    (clientStates : List (Nat × WSState)) : List Nat → Except JsErr (List Sent)
  | [] => Except.ok []
  | c :: cs =>
    if getA c clientStates = some WSState.opened then
      match jsProp payload "subscription" with
      | Except.error e => Except.error e
      | Except.ok sub =>
        match jsProp sub "type" with
        | Except.error e => Except.error e
        | Except.ok etype =>
          match jsProp event "user_id" with
          | Except.error e => Except.error e
          | Except.ok uid =>
            match jsProp event "user_name" with
            | Except.error e => Except.error e
            | Except.ok uname =>
              match broadcastGo payload event channelId clientStates cs with
              | Except.error e => Except.error e
              | Except.ok rest =>
                Except.ok
                  ({ client := c
                     channelId := channelId
                     eventType := etype
                     event := event
                     userId := if jsTruthy uid then uid else none
                     userName := if jsTruthy uname then uname else none } :: rest)
    else broadcastGo payload event channelId clientStates cs

/-- `ws.close()` on WebSocket `wsId`. -/
def wsClose (wsId : Nat) (st : ServerState) : ServerState :=
  { st with wsStates := setA wsId WSState.closed st.wsStates }

/-- `session.sessionId = v` on the session object captured by the
`onmessage` closure (keyed by its WebSocket identifier). -/
def setSessionId (wsId : Nat) (v : Option JVal) (st : ServerState) : ServerState :=
  match getA wsId st.sessions with
  | some s => { st with sessions := setA wsId { s with sessionId := v } st.sessions }
  | none => st

/-- The outcome of one `ws.onmessage` invocation: whether the handler ran
to completion or threw (an async handler, so a throw surfaces as a
rejected promise), the server state afterwards, and the messages sent to
widget clients. -/
structure MsgOut where
  result : Except JsErr Unit
  state : ServerState
  sent : List Sent

/-- The `session_welcome` branch of the handler: read
`data.payload.session.id` (each step can throw), assign it to the closure
session's `sessionId`, then run `subscribeToEvents` with it.  All throwing
reads precede the mutation, as in the source. -/
def welcomeStep (respond : Nat → Nat) (token channelId : String) (wsId : Nat)
    (data : JVal) (st : ServerState) : Except JsErr ServerState :=
  match jsProp (some data) "payload" with
  | Except.error e => Except.error e
  | Except.ok payload =>
    match jsProp payload "session" with
    | Except.error e => Except.error e
    | Except.ok sessObj =>
      match jsProp sessObj "id" with
      | Except.error e => Except.error e
      | Except.ok idv =>
        Except.ok (subscribeToEvents respond token channelId idv
          (setSessionId wsId idv st)).1

/-- The `notification` branch of the handler: read `data.payload.event`
(each step can throw), then fan out over the widget clients.  It never
mutates the state. -/
def notifStep (data : JVal) (channelId : String) (st : ServerState) :
    Except JsErr (List Sent) :=
  match jsProp (some data) "payload" with
  | Except.error e => Except.error e
  | Except.ok payload =>
    match jsProp payload "event" with
    | Except.error e => Except.error e
    | Except.ok event =>
      broadcastGo payload event channelId st.clientStates st.widgetClients

/-- The `ws.onmessage` handler installed by `connectTwitchWS`, for the
connection with closure variables `token`, `channelId` and WebSocket
`wsId`.  `msg` is the parse outcome of `msg.data` (`none` = unparseable,
making `JSON.parse` throw).  The three `if` branches of the source run in
sequence on the same `data`; every field read that can throw happens
before any state mutation of the same branch, so an error leaves the
state of the failing branch's entry untouched. -/
def onMessage (respond : Nat → Nat) (token channelId : String) (wsId : Nat)
    (msg : Option JVal) (st : ServerState) : MsgOut :=
  match msg with
  | none => { result := Except.error JsErr.parseError, state := st, sent := [] }
  | some data =>
    match jsProp (some data) "metadata" with
    | Except.error e => { result := Except.error e, state := st, sent := [] }
    | Except.ok metadata =>
      let mt := jsOptProp metadata "message_type"
      match (if isStr mt "session_welcome" then
               welcomeStep respond token channelId wsId data st
             else Except.ok st) with
      | Except.error e => { result := Except.error e, state := st, sent := [] }
      | Except.ok st1 =>
        match (if isStr mt "notification" then notifStep data channelId st1
               else Except.ok []) with
        | Except.error e => { result := Except.error e, state := st1, sent := [] }
        | Except.ok sent =>
          { result := Except.ok ()
            state :=
              if isStr mt "session_reconnect" then
                connectTwitchWS token channelId (wsClose wsId st1)
              else st1
            sent := sent }

/-- The response of the `https://id.twitch.tv/oauth2/validate` call for a
token: HTTP status and the `user_id` field of the JSON body (`none` when
absent or null). -/
structure ValidateResp where
  status : Nat
  user_id : Option String

/-- Whether a stored credential passes startup validation (`res.ok`). -/
def entryValid (validate : String → ValidateResp) (e : TokenEntry) : Bool :=
  resOk (validate e.token).status

/-- `info.user_id ?? userId`: the canonical account identifier used when
connecting a validated credential. -/
def canonicalId (validate : String → ValidateResp) (e : TokenEntry) : String :=
  ((validate e.token).user_id).getD e.userId

/-- The `for (const entry of [...tokens])` loop of
`checkAndConnectTokens`: the iteration list is a snapshot, while removals
act on the live store.  Invalid entries are filtered out of the store;
valid ones are connected via `connectTwitchWS` under the canonical
identifier. -/
def checkAndConnectGo (validate : String → ValidateResp) :
    List TokenEntry → ServerState → ServerState
  | [], st => st
  | e :: rest, st =>
    if entryValid validate e then
      checkAndConnectGo validate rest (connectTwitchWS e.token (canonicalId validate e) st)
    else
      checkAndConnectGo validate rest
        { st with tokens :=
            st.tokens.filter (fun t => t.token != e.token || t.userId != e.userId) }

/-- `checkAndConnectTokens()`: read the store and run the loop over a
snapshot of it. -/
def checkAndConnectTokens (validate : String → ValidateResp) (st : ServerState) :
    ServerState :=
  checkAndConnectGo validate st.tokens st

/-- The `wss.handleUpgrade` callback: push the new widget client (its
connection is OPEN once the upgrade completes). -/
def handleWidgetUpgrade (c : Nat) (st : ServerState) : ServerState :=
  { st with
    widgetClients := st.widgetClients ++ [c]
    clientStates := setA c WSState.opened st.clientStates }

/-- The widget client `close` handler: the runtime marks the connection
CLOSED and the handler filters the client out of `widgetClients`. -/
def handleWidgetClose (c : Nat) (st : ServerState) : ServerState :=
  { st with
    widgetClients := st.widgetClients.filter (fun x => x != c)
    clientStates := setA c WSState.closed st.clientStates }

/-- Concrete state used to instantiate theorems with hypotheses: one
handshake-completed session `"chan"`/`"tok"` on the open WebSocket `0`,
two stored credentials, two widget clients (one open, one closed). -/
def sessW : StreamerSession :=
  { token := "tok", channelId := "chan", ws := 0, sessionId := some (JVal.str "S1") }

def stW : ServerState :=
  { streamerSessions := [("chan", 0)]
    sessions := [(0, sessW)]
    wsStates := [(0, WSState.opened)]
    nextWs := 1
    tokens := [{ userId := "chan", token := "tok" }, { userId := "other", token := "tok2" }]
    widgetClients := [5, 6]
    clientStates := [(5, WSState.opened), (6, WSState.closed)] }

/-- Response oracle whose second subscription request is answered 401. -/
def respW : Nat → Nat := fun k => if k = 0 then 202 else 401

/-- Validation oracle that rejects every token with status 401. -/
def validateReject : String → ValidateResp := fun _ => { status := 401, user_id := none }

/-- Response oracle answering 401 to every subscription request. -/
def respFail : Nat → Nat := fun _ => 401

/-- An upstream `session_reconnect` directive (its payload is never read
by the handler). -/
def reconnectMsg : JVal :=
  JVal.obj [("metadata", JVal.obj [("message_type", JVal.str "session_reconnect")])]

/-- The payload of a well-formed notification: subscription type `tv` and
event object with fields `evFields`. -/
def notifPayload (tv : JVal) (evFields : List (String × JVal)) : JVal :=
  JVal.obj [("subscription", JVal.obj [("type", tv)]), ("event", JVal.obj evFields)]

/-- A well-formed upstream notification message. -/
def notifMsg (tv : JVal) (evFields : List (String × JVal)) : JVal :=
  JVal.obj [("metadata", JVal.obj [("message_type", JVal.str "notification")]),
            ("payload", notifPayload tv evFields)]

/-- Whether a widget client's connection is currently OPEN
(`client.readyState === WebSocket.OPEN`). -/
def clientOpen (clientStates : List (Nat × WSState)) (c : Nat) : Bool :=
  match getA c clientStates with
  | some WSState.opened => true
  | _ => false

/-- Event object whose `user_id` is present but falsy (the empty string). -/
def evFieldsX : List (String × JVal) :=
  [("user_id", JVal.str ""), ("user_name", JVal.str "alice")]

/-- A `session_welcome` message whose payload is missing the `session`
field the handler reads. -/
def badWelcome : JVal :=
  JVal.obj [("metadata", JVal.obj [("message_type", JVal.str "session_welcome")]),
            ("payload", JVal.obj [])]

/-- Whether WebSocket `w` is Closed in state `st`. -/
def wsClosedIn (st : ServerState) (w : Nat) : Bool :=
  match getA w st.wsStates with
  | some WSState.closed => true
  | _ => false

/-- How many session objects for `accountId` have a non-Closed WebSocket
(session objects live on in closures even when no longer in the
registry). -/
def nonClosedCount (st : ServerState) (accountId : String) : Nat :=
  (st.sessions.filter
    (fun p => p.2.channelId == accountId && !wsClosedIn st p.2.ws)).length

/-- Fresh server state holding two stored credentials. -/
def stC4 : ServerState :=
  { streamerSessions := [], sessions := [], wsStates := [], nextWs := 0,
    tokens := [{ userId := "a", token := "t1" }, { userId := "b", token := "t2" }],
    widgetClients := [], clientStates := [] }

/-- Validation oracle accepting every token as canonical account `"X"`
(two different users' tokens may validate to the same Twitch user). -/
def validateX : String → ValidateResp := fun _ => { status := 200, user_id := some "X" }

/-- A state with a non-Closed session already registered for the
canonical account `"X"` and one stored credential resolving to `"X"`. -/
def stC7 : ServerState :=
  { streamerSessions := [("X", 0)]
    sessions := [(0, { token := "t", channelId := "X", ws := 0, sessionId := none })]
    wsStates := [(0, WSState.opened)]
    nextWs := 1
    tokens := [{ userId := "a", token := "t" }]
    widgetClients := []
    clientStates := [] }

/-- The envelope the notification branch sends to one open client for a
well-formed notification `notifMsg tv evFields`. -/
def mkSent (c : Nat) (channelId : String) (tv : JVal)
    (evFields : List (String × JVal)) : Sent :=
  { client := c
    channelId := channelId
    eventType := some tv
    event := some (JVal.obj evFields)
    userId :=
      if jsTruthy (getA "user_id" evFields) then getA "user_id" evFields else none
    userName :=
      if jsTruthy (getA "user_name" evFields) then getA "user_name" evFields else none }

theorem getA_setA_self {α β : Type} [DecidableEq α] (k : α) (v : β) (l : List (α × β)) :
    getA k (setA k v l) = some v := by
  induction l with
  | nil => simp [getA, setA]
  | cons p rest ih =>
    by_cases h : p.1 = k
    · simp [getA, setA, h]
    · simp [getA, setA, h, ih]

theorem getA_setA_ne {α β : Type} [DecidableEq α] {k k' : α} (h : k' ≠ k) (v : β)
    (l : List (α × β)) : getA k (setA k' v l) = getA k l := by
  induction l with
  | nil => simp [getA, setA, h]
  | cons p rest ih =>
    by_cases h2 : p.1 = k'
    · simp [getA, setA, h2, h]
    · by_cases h3 : p.1 = k
      · simp [getA, setA, h2, h3, Ne.symm h]
      · simp [getA, setA, h2, h3, ih]

/-- C1: for a handshake-completed session (the registry maps `channelId`
to the owning session, whose WebSocket is OPEN), `subscribeToEvents`
issues exactly one registration request per topic in the order `begin`,
`progress`, `end`; and on the first 401/403 response it stops (no request
for any later topic), removes the `{channelId, token}` credential from
the store, closes the owning connection, and changes nothing else. -/
theorem subscribeToEvents_auth_abort (respond : Nat → Nat) (token channelId : String)
    (sessionId : Option JVal) (st : ServerState) (sid : Nat) (sess : StreamerSession)
    (hreg : getA channelId st.streamerSessions = some sid)
    (hsess : getA sid st.sessions = some sess)
    (hopen : getA sess.ws st.wsStates = some WSState.opened) :
    (authFail (respond 0) = true →
      subscribeToEvents respond token channelId sessionId st =
        ({ st with
            tokens := st.tokens.filter (fun t => t.token != token || t.userId != channelId)
            wsStates := setA sess.ws WSState.closed st.wsStates },
         (hypeTrainEvents.take 1).map (fun e => mkSubRequest e token channelId sessionId))) ∧
    (authFail (respond 0) = false → authFail (respond 1) = true →
      subscribeToEvents respond token channelId sessionId st =
        ({ st with
            tokens := st.tokens.filter (fun t => t.token != token || t.userId != channelId)
            wsStates := setA sess.ws WSState.closed st.wsStates },
         (hypeTrainEvents.take 2).map (fun e => mkSubRequest e token channelId sessionId))) ∧
    (authFail (respond 0) = false → authFail (respond 1) = false →
      authFail (respond 2) = true →
      subscribeToEvents respond token channelId sessionId st =
        ({ st with
            tokens := st.tokens.filter (fun t => t.token != token || t.userId != channelId)
            wsStates := setA sess.ws WSState.closed st.wsStates },
         (hypeTrainEvents.take 3).map (fun e => mkSubRequest e token channelId sessionId))) ∧
    (authFail (respond 0) = false → authFail (respond 1) = false →
      authFail (respond 2) = false →
      subscribeToEvents respond token channelId sessionId st =
        (st, hypeTrainEvents.map (fun e => mkSubRequest e token channelId sessionId))) := by
  refine ⟨?_, ?_, ?_, ?_⟩
  · intro h0
    simp [subscribeToEvents, hypeTrainEvents, subscribeGo, h0, hreg, hsess, hopen]
  · intro h0 h1
    simp [subscribeToEvents, hypeTrainEvents, subscribeGo, h0, h1, hreg, hsess, hopen]
  · intro h0 h1 h2
    simp [subscribeToEvents, hypeTrainEvents, subscribeGo, h0, h1, h2, hreg, hsess, hopen]
  · intro h0 h1 h2
    simp [subscribeToEvents, hypeTrainEvents, subscribeGo, h0, h1, h2]

/-- C1 witness: the theorem instantiated at `stW` with a 401 on the second
request: only `begin` and `progress` are attempted, the credential is
removed and WebSocket `0` is closed. -/
theorem subscribeToEvents_auth_abort_witness :
    getA "chan" stW.streamerSessions = some 0 ∧
    getA 0 stW.sessions = some sessW ∧
    getA sessW.ws stW.wsStates = some WSState.opened ∧
    authFail (respW 0) = false ∧ authFail (respW 1) = true ∧
    subscribeToEvents respW "tok" "chan" (some (JVal.str "S1")) stW =
      ({ stW with
          tokens := stW.tokens.filter (fun t => t.token != "tok" || t.userId != "chan")
          wsStates := setA sessW.ws WSState.closed stW.wsStates },
       (hypeTrainEvents.take 2).map
         (fun e => mkSubRequest e "tok" "chan" (some (JVal.str "S1")))) :=
  ⟨rfl, rfl, rfl, rfl, rfl,
    (subscribeToEvents_auth_abort respW "tok" "chan" (some (JVal.str "S1")) stW 0 sessW
      rfl rfl rfl).2.1 rfl rfl⟩

/-- C2: while a non-Closed session for `accountId` exists, a second call
to the registration handler returns success with the same `channelId`,
leaves the whole state — in particular the registry entry and the session
— unchanged, and creates no new upstream connection.  (The source's guard
`!streamerSessions[channelId]` only tests existence, which the non-Closed
hypothesis implies.) -/
theorem registerStreamer_idempotent (userId token : String) (st : ServerState)
    (sid : Nat) (sess : StreamerSession)
    (hu : userId ≠ "") (ht : token ≠ "")
    (hreg : getA userId st.streamerSessions = some sid)
    (_hsess : getA sid st.sessions = some sess)
    (_hnc : getA sess.ws st.wsStates ≠ some WSState.closed) :
    registerStreamer (some userId) (some token) st = (st, RegisterResult.okResp userId) := by
  simp [registerStreamer, hu, ht, hreg]

/-- C2 witness: re-registering `"chan"` (whose session on WebSocket `0` is
open) at `stW` returns `stW` itself. -/
theorem registerStreamer_idempotent_witness :
    "chan" ≠ "" ∧ "tok3" ≠ "" ∧
    getA "chan" stW.streamerSessions = some 0 ∧
    getA 0 stW.sessions = some sessW ∧
    getA sessW.ws stW.wsStates ≠ some WSState.closed ∧
    registerStreamer (some "chan") (some "tok3") stW = (stW, RegisterResult.okResp "chan") :=
  ⟨by decide, by decide, rfl, rfl, by decide,
    registerStreamer_idempotent "chan" "tok3" stW 0 sessW (by decide) (by decide)
      rfl rfl (by decide)⟩

/-- C9: the `/registerStreamer` handler answers `{success: true,
channelId}` with `channelId` exactly the `userId` supplied in the request;
when it creates a session, that session is keyed and built with the
supplied `userId` itself — no canonical upstream identifier is resolved
on this path. -/
theorem registerStreamer_channelId_is_userId (userId token : String) (st : ServerState)
    (hu : userId ≠ "") (ht : token ≠ "") :
    (registerStreamer (some userId) (some token) st).2 = RegisterResult.okResp userId ∧
    (getA userId st.streamerSessions = none →
      (registerStreamer (some userId) (some token) st).1 = connectTwitchWS token userId st) := by
  constructor
  · simp [registerStreamer, hu, ht]
  · intro hnone
    simp [registerStreamer, hu, ht, hnone]

/-- C9 witness: registering the unknown account `"newuser"` at `stW`
answers with `channelId = "newuser"` and connects under `"newuser"`. -/
theorem registerStreamer_channelId_is_userId_witness :
    "newuser" ≠ "" ∧ "tok4" ≠ "" ∧
    (registerStreamer (some "newuser") (some "tok4") stW).2 =
      RegisterResult.okResp "newuser" ∧
    (getA "newuser" stW.streamerSessions = none →
      (registerStreamer (some "newuser") (some "tok4") stW).1 =
        connectTwitchWS "tok4" "newuser" stW) :=
  ⟨by decide, by decide,
    (registerStreamer_channelId_is_userId "newuser" "tok4" stW (by decide) (by decide)).1,
    (registerStreamer_channelId_is_userId "newuser" "tok4" stW (by decide) (by decide)).2⟩

/-- C10: credential revocation removes exactly the store entries whose
`userId` and `token` both match the revoked pair — at the subscription
authorization-failure site (shown for a 401/403 on the first topic) and
at the startup invalid-token site; every other entry stays in the store. -/
theorem revocation_removes_exact_pair :
    (∀ (respond : Nat → Nat) (token channelId : String) (sessionId : Option JVal)
      (st : ServerState), authFail (respond 0) = true →
      ∀ t : TokenEntry,
        t ∈ (subscribeToEvents respond token channelId sessionId st).1.tokens ↔
          (t ∈ st.tokens ∧ (t.token ≠ token ∨ t.userId ≠ channelId))) ∧
    (∀ (validate : String → ValidateResp) (e : TokenEntry) (st : ServerState),
      entryValid validate e = false →
      ∀ t : TokenEntry,
        t ∈ (checkAndConnectGo validate [e] st).tokens ↔
          (t ∈ st.tokens ∧ (t.token ≠ e.token ∨ t.userId ≠ e.userId))) := by
  constructor
  · intro respond token channelId sessionId st h0 t
    simp only [subscribeToEvents, hypeTrainEvents, subscribeGo, h0, if_true]
    split <;> try split <;> try split
    all_goals simp [List.mem_filter, bne_iff_ne]
  · intro validate e st hinv t
    simp [checkAndConnectGo, hinv, List.mem_filter, bne_iff_ne]

/-- C10 witness: at `stW` a revocation of `{chan, tok}` (via a 401 on the
first subscription request, and via startup validation failure) keeps the
unrelated entry `{other, tok2}` and drops `{chan, tok}`. -/
theorem revocation_removes_exact_pair_witness :
    authFail (respFail 0) = true ∧
    (({ userId := "other", token := "tok2" } : TokenEntry) ∈
        (subscribeToEvents respFail "tok" "chan" (some (JVal.str "S1")) stW).1.tokens ↔
      (({ userId := "other", token := "tok2" } : TokenEntry) ∈ stW.tokens ∧
        (("tok2" : String) ≠ "tok" ∨ ("other" : String) ≠ "chan"))) ∧
    entryValid validateReject { userId := "chan", token := "tok" } = false ∧
    (({ userId := "chan", token := "tok" } : TokenEntry) ∈
        (checkAndConnectGo validateReject [{ userId := "chan", token := "tok" }] stW).tokens ↔
      (({ userId := "chan", token := "tok" } : TokenEntry) ∈ stW.tokens ∧
        (("tok" : String) ≠ "tok" ∨ ("chan" : String) ≠ "chan"))) :=
  ⟨rfl,
    revocation_removes_exact_pair.1 respFail "tok" "chan" (some (JVal.str "S1")) stW rfl
      { userId := "other", token := "tok2" },
    rfl,
    revocation_removes_exact_pair.2 validateReject { userId := "chan", token := "tok" } stW rfl
      { userId := "chan", token := "tok" }⟩

/-- C8: on a `session_reconnect` directive the handler closes the current
WebSocket and creates exactly one new upstream connection (`nextWs` grows
by one) for the same `accountId` and the same `token`; the new session
replaces the registry entry for that `accountId`, the prior connection is
Closed, and the new one starts CONNECTING.  (`wsId ≠ st.nextWs` holds in
every reachable state: identifiers of existing sockets are below the
counter.) -/
theorem reconnect_replaces_connection (respond : Nat → Nat) (token channelId : String)
    (wsId : Nat) (st : ServerState) (hws : wsId ≠ st.nextWs) :
    onMessage respond token channelId wsId (some reconnectMsg) st =
      { result := Except.ok ()
        state := connectTwitchWS token channelId (wsClose wsId st)
        sent := [] } ∧
    (onMessage respond token channelId wsId (some reconnectMsg) st).state.nextWs =
      st.nextWs + 1 ∧
    getA channelId
        (onMessage respond token channelId wsId (some reconnectMsg) st).state.streamerSessions =
      some st.nextWs ∧
    getA st.nextWs
        (onMessage respond token channelId wsId (some reconnectMsg) st).state.sessions =
      some { token := token, channelId := channelId, ws := st.nextWs, sessionId := none } ∧
    getA wsId (onMessage respond token channelId wsId (some reconnectMsg) st).state.wsStates =
      some WSState.closed ∧
    getA st.nextWs
        (onMessage respond token channelId wsId (some reconnectMsg) st).state.wsStates =
      some WSState.connecting := by
  have hmsg : onMessage respond token channelId wsId (some reconnectMsg) st =
      { result := Except.ok ()
        state := connectTwitchWS token channelId (wsClose wsId st)
        sent := [] } := rfl
  refine ⟨hmsg, ?_, ?_, ?_, ?_, ?_⟩ <;>
    simp [hmsg, connectTwitchWS, wsClose, getA_setA_self, getA_setA_ne, hws, Ne.symm hws]

/-- C8 witness: a reconnect directive on the session of `stW` closes
WebSocket `0` and registers the fresh connection `1` for `"chan"` with
the same token. -/
theorem reconnect_replaces_connection_witness :
    (0 : Nat) ≠ stW.nextWs ∧
    onMessage respFail "tok" "chan" 0 (some reconnectMsg) stW =
      { result := Except.ok ()
        state := connectTwitchWS "tok" "chan" (wsClose 0 stW)
        sent := [] } ∧
    getA "chan"
        (onMessage respFail "tok" "chan" 0 (some reconnectMsg) stW).state.streamerSessions =
      some 1 ∧
    getA 0 (onMessage respFail "tok" "chan" 0 (some reconnectMsg) stW).state.wsStates =
      some WSState.closed ∧
    getA 1 (onMessage respFail "tok" "chan" 0 (some reconnectMsg) stW).state.wsStates =
      some WSState.connecting :=
  ⟨by decide,
    (reconnect_replaces_connection respFail "tok" "chan" 0 stW (by decide)).1,
    (reconnect_replaces_connection respFail "tok" "chan" 0 stW (by decide)).2.2.1,
    (reconnect_replaces_connection respFail "tok" "chan" 0 stW (by decide)).2.2.2.2.1,
    (reconnect_replaces_connection respFail "tok" "chan" 0 stW (by decide)).2.2.2.2.2⟩

theorem broadcastGo_notif (tv : JVal) (evFields : List (String × JVal))
    (channelId : String) (states : List (Nat × WSState)) (cs : List Nat) :
    broadcastGo (some (notifPayload tv evFields)) (some (JVal.obj evFields)) channelId
        states cs =
      Except.ok ((cs.filter (clientOpen states)).map
        (fun c => mkSent c channelId tv evFields)) := by
  induction cs with
  | nil => rfl
  | cons c cs ih =>
    by_cases h : getA c states = some WSState.opened
    · have hstep : broadcastGo (some (notifPayload tv evFields)) (some (JVal.obj evFields))
          channelId states (c :: cs) =
          (match broadcastGo (some (notifPayload tv evFields)) (some (JVal.obj evFields))
              channelId states cs with
           | Except.error e => Except.error e
           | Except.ok rest => Except.ok (mkSent c channelId tv evFields :: rest)) := by
        rw [broadcastGo, if_pos h]
        rfl
      rw [hstep, ih]
      simp [List.filter_cons, clientOpen, h]
    · have hstep : broadcastGo (some (notifPayload tv evFields)) (some (JVal.obj evFields))
          channelId states (c :: cs) =
          broadcastGo (some (notifPayload tv evFields)) (some (JVal.obj evFields))
            channelId states cs := by
        rw [broadcastGo, if_neg h]
      rw [hstep, ih]
      have hco : clientOpen states c = false := by
        unfold clientOpen
        cases hg : getA c states with
        | none => rfl
        | some s => cases s <;> simp_all [clientOpen]
      simp [List.filter_cons, hco]

theorem onMessage_notif_eq (respond : Nat → Nat) (token channelId : String) (wsId : Nat)
    (tv : JVal) (evFields : List (String × JVal)) (st : ServerState) :
    onMessage respond token channelId wsId (some (notifMsg tv evFields)) st =
      { result := Except.ok ()
        state := st
        sent := (st.widgetClients.filter (clientOpen st.clientStates)).map
          (fun c => mkSent c channelId tv evFields) } := by
  have hred : onMessage respond token channelId wsId (some (notifMsg tv evFields)) st =
      (match broadcastGo (some (notifPayload tv evFields)) (some (JVal.obj evFields))
          channelId st.clientStates st.widgetClients with
       | Except.error e => { result := Except.error e, state := st, sent := [] }
       | Except.ok sent => { result := Except.ok (), state := st, sent := sent }) := rfl
  rw [hred, broadcastGo_notif]

/-- C5: a broadcast over the widget listener list delivers the envelope to
exactly the clients whose connections are OPEN, once each in list order;
closed clients receive nothing, the listener list (and all other state) is
unchanged by the broadcast, and a client is removed from the list only by
its own close handler, which removes exactly that client. -/
theorem broadcast_delivers_to_open_listeners (respond : Nat → Nat)
    (token channelId : String) (wsId : Nat) (tv : JVal)
    (evFields : List (String × JVal)) (st : ServerState) (c : Nat) :
    (onMessage respond token channelId wsId (some (notifMsg tv evFields)) st).result =
      Except.ok () ∧
    (onMessage respond token channelId wsId (some (notifMsg tv evFields)) st).state = st ∧
    (onMessage respond token channelId wsId (some (notifMsg tv evFields)) st).sent.map
        Sent.client =
      st.widgetClients.filter (clientOpen st.clientStates) ∧
    (handleWidgetClose c st).widgetClients = st.widgetClients.filter (fun x => x != c) := by
  rw [onMessage_notif_eq]
  refine ⟨rfl, rfl, ?_, rfl⟩
  rw [List.map_map]
  show List.map id (st.widgetClients.filter (clientOpen st.clientStates)) =
    st.widgetClients.filter (clientOpen st.clientStates)
  exact List.map_id _

/-- C6 (amended): the envelope sent to each open client is
`{channelId, eventType, event, userId, userName}` with `channelId` the
session's account identifier, `eventType = payload.subscription.type`,
`event` the full event object, and `userId`/`userName` equal to the
event's `user_id`/`user_name` when those are truthy and `null` when the
field is absent **or falsy** (`event.user_id || null`). -/
theorem broadcast_envelope_shape (respond : Nat → Nat)
    (token channelId : String) (wsId : Nat) (tv : JVal)
    (evFields : List (String × JVal)) (st : ServerState) :
    (onMessage respond token channelId wsId (some (notifMsg tv evFields)) st).sent =
      (st.widgetClients.filter (clientOpen st.clientStates)).map
        (fun c =>
          { client := c
            channelId := channelId
            eventType := some tv
            event := some (JVal.obj evFields)
            userId :=
              if jsTruthy (getA "user_id" evFields) then getA "user_id" evFields else none
            userName :=
              if jsTruthy (getA "user_name" evFields) then getA "user_name" evFields
              else none }) := by
  rw [onMessage_notif_eq]
  rfl

/-- C6 counterexample: an event whose `user_id` is present but equal to
the empty string is broadcast with `userId = null`, so `userId` is not
null exactly when `user_id` is absent on the source event. -/
theorem broadcast_userId_null_though_present :
    (onMessage respFail "tok" "chan" 0
        (some (notifMsg (JVal.str "channel.hype_train.begin") evFieldsX)) stW).sent =
      [{ client := 5
         channelId := "chan"
         eventType := some (JVal.str "channel.hype_train.begin")
         event := some (JVal.obj evFieldsX)
         userId := none
         userName := some (JVal.str "alice") }] ∧
    getA "user_id" evFieldsX = some (JVal.str "") :=
  ⟨rfl, rfl⟩

theorem isStr_unique {v : Option JVal} {a b : String} (ha : isStr v a = true)
    (hb : isStr v b = true) : a = b := by
  cases v with
  | none => simp [isStr] at ha
  | some j =>
    cases j <;> simp [isStr] at ha hb
    rw [← ha, hb]

/-- C3 counterexample: a `session_welcome` message whose payload is
missing the `session` field makes the handler throw a `TypeError`
(reading `data.payload.session.id`); the message is not dropped and
logged without throwing as the claim states. -/
theorem onMessage_malformed_message_throws :
    (onMessage respFail "tok" "chan" 0 (some badWelcome) stW).result =
      Except.error JsErr.typeError := rfl

/-- C3 (amended): a malformed inbound message — unparseable data or a
payload missing a field the handler reads — makes the handler throw (the
error escapes the async `onmessage` callback as an unhandled rejection)
rather than being logged; but whenever the handler throws, no state
mutation and no send has happened: the session registry, the sessions,
the WebSocket states, the token store and the listener set are all
unchanged. -/
theorem onMessage_error_leaves_state_unchanged (respond : Nat → Nat)
    (token channelId : String) (wsId : Nat) (msg : Option JVal) (st : ServerState)
    (e : JsErr)
    (h : (onMessage respond token channelId wsId msg st).result = Except.error e) :
    (onMessage respond token channelId wsId msg st).state = st ∧
    (onMessage respond token channelId wsId msg st).sent = [] := by
  cases msg with
  | none => exact ⟨rfl, rfl⟩
  | some data =>
    simp only [onMessage] at h ⊢
    cases hm : jsProp (some data) "metadata" with
    | error e2 =>
      simp only [hm] at h ⊢
      exact ⟨by trivial, by trivial⟩
    | ok metadata =>
      simp only [hm] at h ⊢
      by_cases hw : isStr (jsOptProp metadata "message_type") "session_welcome" = true
      · cases hws : welcomeStep respond token channelId wsId data st with
        | error e2 =>
          simp only [hw, if_true, hws] at h ⊢
          exact ⟨by trivial, by trivial⟩
        | ok st1 =>
          have hn : isStr (jsOptProp metadata "message_type") "notification" = false := by
            cases hc : isStr (jsOptProp metadata "message_type") "notification"
            · rfl
            · exact absurd (isStr_unique hw hc) (by decide)
          simp [hw, hws, hn] at h
      · have hw' : isStr (jsOptProp metadata "message_type") "session_welcome" = false := by
          simpa using hw
        by_cases hn : isStr (jsOptProp metadata "message_type") "notification" = true
        · cases hns : notifStep data channelId st with
          | error e2 =>
            simp only [hw', Bool.false_eq_true, if_false, hn, if_true, hns] at h ⊢
            exact ⟨by trivial, by trivial⟩
          | ok sent =>
            simp [hw', hn, hns] at h
        · have hn' : isStr (jsOptProp metadata "message_type") "notification" = false := by
            simpa using hn
          simp [hw', hn'] at h

/-- C3 witness: the frame theorem instantiated at the malformed welcome
message: the handler throws, yet the state is exactly `stW` and nothing
was sent. -/
theorem onMessage_error_leaves_state_unchanged_witness :
    (onMessage respFail "tok" "chan" 0 (some badWelcome) stW).result =
      Except.error JsErr.typeError ∧
    (onMessage respFail "tok" "chan" 0 (some badWelcome) stW).state = stW ∧
    (onMessage respFail "tok" "chan" 0 (some badWelcome) stW).sent = [] :=
  ⟨rfl,
    (onMessage_error_leaves_state_unchanged respFail "tok" "chan" 0 (some badWelcome)
      stW JsErr.typeError rfl).1,
    (onMessage_error_leaves_state_unchanged respFail "tok" "chan" 0 (some badWelcome)
      stW JsErr.typeError rfl).2⟩

/-- C4 counterexample: startup reconciliation of two credentials whose
tokens both validate to canonical account `"X"` connects twice without
closing: afterwards two non-Closed sessions for `"X"` exist — the first
(WebSocket `0`) still CONNECTING but evicted from the registry, which
points at the second (WebSocket `1`). -/
theorem two_nonClosed_sessions_after_reconciliation :
    nonClosedCount (checkAndConnectTokens validateX stC4) "X" = 2 ∧
    getA "X" (checkAndConnectTokens validateX stC4).streamerSessions = some 1 ∧
    getA 0 (checkAndConnectTokens validateX stC4).wsStates = some WSState.connecting ∧
    getA 0 (checkAndConnectTokens validateX stC4).sessions =
      some { token := "t1", channelId := "X", ws := 0, sessionId := none } :=
  ⟨rfl, rfl, rfl, rfl⟩

/-- C4 (amended): the at-most-one-non-Closed-session invariant is
maintained by the registration path (no connection is created when a
registry entry for the account exists) and by the reconnect path (the
prior WebSocket is Closed in the same step that registers the
replacement); startup reconciliation, however, connects unconditionally
and can leave a prior non-Closed session outside the registry (see the
counterexample). -/
theorem register_and_reconnect_preserve_single_session (respond : Nat → Nat)
    (userId token : String) (st : ServerState) (wsId : Nat)
    (hex : (getA userId st.streamerSessions).isSome = true)
    (hws : wsId ≠ st.nextWs) :
    (registerStreamer (some userId) (some token) st).1 = st ∧
    getA wsId
        (onMessage respond token userId wsId (some reconnectMsg) st).state.wsStates =
      some WSState.closed ∧
    getA userId
        (onMessage respond token userId wsId (some reconnectMsg) st).state.streamerSessions =
      some st.nextWs := by
  refine ⟨?_, ?_, ?_⟩
  · simp only [registerStreamer]
    split
    · rfl
    · simp [hex]
  · have hmsg : onMessage respond token userId wsId (some reconnectMsg) st =
        { result := Except.ok ()
          state := connectTwitchWS token userId (wsClose wsId st)
          sent := [] } := rfl
    rw [hmsg]
    simp [connectTwitchWS, wsClose, getA_setA_ne (Ne.symm hws), getA_setA_self]
  · have hmsg : onMessage respond token userId wsId (some reconnectMsg) st =
        { result := Except.ok ()
          state := connectTwitchWS token userId (wsClose wsId st)
          sent := [] } := rfl
    rw [hmsg]
    simp [connectTwitchWS, wsClose, getA_setA_self]

/-- C4 amended-theorem witness: at `stW` (account `"chan"` registered on
WebSocket `0`) re-registration leaves the state unchanged and a reconnect
closes WebSocket `0` while registering WebSocket `1`. -/
theorem register_and_reconnect_preserve_single_session_witness :
    (getA "chan" stW.streamerSessions).isSome = true ∧
    (0 : Nat) ≠ stW.nextWs ∧
    (registerStreamer (some "chan") (some "tok") stW).1 = stW ∧
    getA 0 (onMessage respW "tok" "chan" 0 (some reconnectMsg) stW).state.wsStates =
      some WSState.closed ∧
    getA "chan"
        (onMessage respW "tok" "chan" 0 (some reconnectMsg) stW).state.streamerSessions =
      some stW.nextWs :=
  ⟨rfl, by decide,
    (register_and_reconnect_preserve_single_session respW "chan" "tok" stW 0 rfl
      (by decide)).1,
    (register_and_reconnect_preserve_single_session respW "chan" "tok" stW 0 rfl
      (by decide)).2.1,
    (register_and_reconnect_preserve_single_session respW "chan" "tok" stW 0 rfl
      (by decide)).2.2⟩

theorem checkAndConnectGo_preserves_low (validate : String → ValidateResp)
    (ents : List TokenEntry) :
    ∀ (st : ServerState) (k : Nat), k < st.nextWs →
      getA k (checkAndConnectGo validate ents st).sessions = getA k st.sessions ∧
      getA k (checkAndConnectGo validate ents st).wsStates = getA k st.wsStates := by
  induction ents with
  | nil => intro st k hk; exact ⟨rfl, rfl⟩
  | cons e rest ih =>
    intro st k hk
    by_cases hv : entryValid validate e = true
    · rw [checkAndConnectGo, if_pos hv]
      have hk' : k < (connectTwitchWS e.token (canonicalId validate e) st).nextWs := by
        simp [connectTwitchWS]; omega
      have hih := ih (connectTwitchWS e.token (canonicalId validate e) st) k hk'
      have hne : st.nextWs ≠ k := by omega
      constructor
      · rw [hih.1]
        simp [connectTwitchWS, getA_setA_ne hne]
      · rw [hih.2]
        simp [connectTwitchWS, getA_setA_ne hne]
    · rw [checkAndConnectGo, if_neg hv]
      exact ih _ k hk

theorem checkAndConnectGo_tokens (validate : String → ValidateResp)
    (ents : List TokenEntry) :
    ∀ st : ServerState, (checkAndConnectGo validate ents st).tokens =
      st.tokens.filter (fun t =>
        (ents.filter (fun e2 => !entryValid validate e2)).all
          (fun e2 => t.token != e2.token || t.userId != e2.userId)) := by
  induction ents with
  | nil =>
    intro st
    simp [checkAndConnectGo]
  | cons e rest ih =>
    intro st
    by_cases hv : entryValid validate e = true
    · rw [checkAndConnectGo, if_pos hv, ih]
      simp only [List.filter_cons, Bool.not_eq_true', hv]
      rfl
    · rw [checkAndConnectGo, if_neg hv, ih]
      have hv' : (!entryValid validate e) = true := by
        simp [Bool.eq_false_iff.mpr hv]
      simp only [List.filter_cons, hv', if_pos, List.all_cons, List.filter_filter]
      rw [List.filter_congr]
      intro t _
      simp [Bool.and_comm]

theorem checkAndConnectGo_nextWs (validate : String → ValidateResp)
    (ents : List TokenEntry) :
    ∀ st : ServerState, (checkAndConnectGo validate ents st).nextWs =
      st.nextWs + (ents.filter (entryValid validate)).length := by
  induction ents with
  | nil => intro st; simp [checkAndConnectGo]
  | cons e rest ih =>
    intro st
    by_cases hv : entryValid validate e = true
    · rw [checkAndConnectGo, if_pos hv, ih]
      simp [connectTwitchWS, List.filter_cons, hv]
      omega
    · rw [checkAndConnectGo, if_neg hv, ih]
      have hv' : entryValid validate e = false := Bool.eq_false_iff.mpr hv
      simp [List.filter_cons, hv']

theorem checkAndConnectGo_new_sessions (validate : String → ValidateResp)
    (ents : List TokenEntry) :
    ∀ (st : ServerState) (i : Nat) (v : TokenEntry),
      (ents.filter (entryValid validate)).get? i = some v →
      getA (st.nextWs + i) (checkAndConnectGo validate ents st).sessions =
        some { token := v.token, channelId := canonicalId validate v,
               ws := st.nextWs + i, sessionId := none } ∧
      getA (st.nextWs + i) (checkAndConnectGo validate ents st).wsStates =
        some WSState.connecting := by
  induction ents with
  | nil => intro st i v hget; simp at hget
  | cons e rest ih =>
    intro st i v hget
    by_cases hv : entryValid validate e = true
    · rw [checkAndConnectGo, if_pos hv]
      rw [List.filter_cons_of_pos hv] at hget
      cases i with
      | zero =>
        rw [List.get?_cons_zero] at hget
        obtain rfl : e = v := by injection hget
        have hlow := checkAndConnectGo_preserves_low validate rest
          (connectTwitchWS e.token (canonicalId validate e) st) st.nextWs
          (by simp [connectTwitchWS])
        constructor
        · rw [Nat.add_zero, hlow.1]
          simp [connectTwitchWS, getA_setA_self]
        · rw [Nat.add_zero, hlow.2]
          simp [connectTwitchWS, getA_setA_self]
      | succ j =>
        rw [List.get?_cons_succ] at hget
        have hih := ih (connectTwitchWS e.token (canonicalId validate e) st) j v hget
        have hnw : (connectTwitchWS e.token (canonicalId validate e) st).nextWs =
            st.nextWs + 1 := rfl
        rw [hnw] at hih
        have harith : st.nextWs + (j + 1) = st.nextWs + 1 + j := by omega
        rw [harith]
        exact hih
    · rw [checkAndConnectGo, if_neg hv]
      rw [List.filter_cons_of_neg hv] at hget
      exact ih
        { st with
          tokens := st.tokens.filter (fun t => t.token != e.token || t.userId != e.userId) }
        i v hget

/-- C7 counterexample: reconciling a valid credential whose canonical
account `"X"` already has a non-Closed registered session does not go
through `registerOrReuse` semantics (return the existing session
unchanged): a brand-new upstream connection (WebSocket `1`) is created
and replaces the registry entry for `"X"`. -/
theorem reconciliation_does_not_reuse_existing_session :
    getA "X" stC7.streamerSessions = some 0 ∧
    wsClosedIn stC7 0 = false ∧
    (checkAndConnectTokens validateX stC7).nextWs = 2 ∧
    getA "X" (checkAndConnectTokens validateX stC7).streamerSessions = some 1 :=
  ⟨rfl, rfl, rfl, rfl⟩

/-- C7 (amended): for every stored credential processed at startup, a
non-2xx validation removes it from the store (exactly the matching
`{userId, token}` pairs) and creates no session for it; a 2xx validation
creates a brand-new upstream connection — not a `registerOrReuse` — for
the canonical identifier from the response's `user_id` (falling back to
the stored key when absent): the i-th valid credential of the snapshot
gets the fresh WebSocket `st.nextWs + i`, CONNECTING, with a session
carrying its token and canonical id; `nextWs` grows by exactly the number
of valid credentials, so no session is created for invalid ones. -/
theorem checkAndConnectTokens_reconciliation (validate : String → ValidateResp)
    (st : ServerState) :
    (checkAndConnectTokens validate st).tokens =
      st.tokens.filter (fun t =>
        (st.tokens.filter (fun e2 => !entryValid validate e2)).all
          (fun e2 => t.token != e2.token || t.userId != e2.userId)) ∧
    (checkAndConnectTokens validate st).nextWs =
      st.nextWs + (st.tokens.filter (entryValid validate)).length ∧
    (∀ (i : Nat) (v : TokenEntry),
      (st.tokens.filter (entryValid validate)).get? i = some v →
      getA (st.nextWs + i) (checkAndConnectTokens validate st).sessions =
        some { token := v.token, channelId := canonicalId validate v,
               ws := st.nextWs + i, sessionId := none } ∧
      getA (st.nextWs + i) (checkAndConnectTokens validate st).wsStates =
        some WSState.connecting) :=
  ⟨checkAndConnectGo_tokens validate st.tokens st,
   checkAndConnectGo_nextWs validate st.tokens st,
   fun i v hget => checkAndConnectGo_new_sessions validate st.tokens st i v hget⟩

/-- C7 witness: reconciling `stC4` (credentials `{a, t1}`, `{b, t2}`,
both valid for canonical account `"X"`): the store keeps both entries,
`nextWs` grows to `2`, and the second valid credential gets session `1`
with token `t2` under `"X"`. -/
theorem checkAndConnectTokens_reconciliation_witness :
    (checkAndConnectTokens validateX stC4).tokens =
      stC4.tokens.filter (fun t =>
        (stC4.tokens.filter (fun e2 => !entryValid validateX e2)).all
          (fun e2 => t.token != e2.token || t.userId != e2.userId)) ∧
    (checkAndConnectTokens validateX stC4).nextWs =
      stC4.nextWs + (stC4.tokens.filter (entryValid validateX)).length ∧
    (stC4.tokens.filter (entryValid validateX)).get? 1 =
      some { userId := "b", token := "t2" } ∧
    getA (stC4.nextWs + 1) (checkAndConnectTokens validateX stC4).sessions =
      some { token := "t2",
             channelId := canonicalId validateX { userId := "b", token := "t2" },
             ws := stC4.nextWs + 1, sessionId := none } ∧
    getA (stC4.nextWs + 1) (checkAndConnectTokens validateX stC4).wsStates =
      some WSState.connecting :=
  ⟨(checkAndConnectTokens_reconciliation validateX stC4).1,
   (checkAndConnectTokens_reconciliation validateX stC4).2.1,
   rfl,
   ((checkAndConnectTokens_reconciliation validateX stC4).2.2 1
     { userId := "b", token := "t2" } rfl).1,
   ((checkAndConnectTokens_reconciliation validateX stC4).2.2 1
     { userId := "b", token := "t2" } rfl).2⟩
